import Mathlib

/-!
Verification of the Device Twin Synchronizer (device_twins.c) of the
Azure-Sphere-Learning-Path repository.

The C module is embedded shallowly:

* JSON values produced by the external parson parser are an inductive type;
  parson numbers (C doubles) are modelled as rationals, and the C cast
  `(int)` from double as truncation toward zero.
* A `DeviceTwinBinding` mirrors the C struct: property name, type tag,
  `twinState` as `Option TwinValue` (`none` models a NULL pointer), and
  whether a change handler is registered.
* Side effects are explicit: handler invocations and submissions to
  `DeviceTwinUpdateReportedState` are recorded as a list of `Event`s;
  `CloseDeviceTwin` additionally reports how many times `free` was called.
* External collaborators (`ConnectToAzureIot`, the IoT hub send primitive)
  and the report buffer capacity are an `AzureEnv` record, and `Terminate`
  is modelled as an aborted run (`Option.none`).
-/

namespace DeviceTwins

/-- JSON value type tags as classified by the parson library
(JSONNull, JSONString, JSONNumber, JSONObject, JSONArray, JSONBoolean). -/
inductive JSONType where
  | JSONNull
  | JSONString
  | JSONNumber
  | JSONObject
  | JSONArray
  | JSONBoolean
deriving DecidableEq

/-- JSON values as produced by the parson parser (external collaborator of
device_twins.c).  Numbers stand in for parson's C doubles and are modelled
as rationals. -/
inductive JSONValue where
  | JNull
  | JString (s : String)
  | JNumber (q : ℚ)
  | JObject (fields : List (String × JSONValue))
  | JArray (items : List JSONValue)
  | JBool (b : Bool)

/-- The parson type tag of a JSON value. -/
def typeOf : JSONValue → JSONType
  | .JNull => .JSONNull
  | .JString _ => .JSONString
  | .JNumber _ => .JSONNumber
  | .JObject _ => .JSONObject
  | .JArray _ => .JSONArray
  | .JBool _ => .JSONBoolean

/-- parson json_object_get_value: first field with the given name, or NULL. -/
def json_object_get_value (o : List (String × JSONValue)) (name : String) :
    Option JSONValue :=
  (o.find? (fun p => p.1 == name)).map Prod.snd

/-- Splits a character list at every dot, used to model parson's dotted
name lookup (structural recursion so that it evaluates in the kernel). -/
def splitOnDot : List Char → List (List Char)
  | [] => [[]]
  | c :: rest =>
    if c = '.' then [] :: splitOnDot rest
    else
      match splitOnDot rest with
      | [] => [[c]]
      | h :: t => (c :: h) :: t

/-- The dot-separated segments of a property name. -/
def dotSegments (s : String) : List String :=
  (splitOnDot s.data).map String.mk

/-- Walks the dotted segments through nested objects, as parson's
json_object_dotget_value does. -/
def dotgetSegs : List (String × JSONValue) → List String → Option JSONValue
  | _, [] => none
  | o, [n] => json_object_get_value o n
  | o, n :: rest =>
    match json_object_get_value o n with
    | some (.JObject inner) => dotgetSegs inner rest
    | _ => none

/-- parson json_object_dotget_value. -/
def json_object_dotget_value (o : List (String × JSONValue)) (name : String) :
    Option JSONValue :=
  dotgetSegs o (dotSegments name)

/-- parson json_value_get_object: the fields if the value is an object,
otherwise NULL. -/
def json_value_get_object : JSONValue → Option (List (String × JSONValue))
  | .JObject fields => some fields
  | _ => none

/-- parson json_object_dotget_object. -/
def json_object_dotget_object (o : List (String × JSONValue)) (name : String) :
    Option (List (String × JSONValue)) :=
  (json_object_dotget_value o name).bind json_value_get_object

/-- parson json_object_has_value_of_type. -/
def json_object_has_value_of_type (o : List (String × JSONValue))
    (name : String) (t : JSONType) : Bool :=
  match json_object_get_value o name with
  | some v => typeOf v == t
  | none => false

/-- parson json_object_get_number (0 when the field is absent or not a
number, as parson documents). -/
def json_object_get_number (o : List (String × JSONValue)) (name : String) : ℚ :=
  match json_object_get_value o name with
  | some (.JNumber q) => q
  | _ => 0

/-- parson json_object_get_boolean followed by the C cast to bool; parson
returns -1 on failure and `(bool)(-1)` is true, but every call site guards
with json_object_has_value_of_type first. -/
def json_object_get_boolean (o : List (String × JSONValue)) (name : String) : Bool :=
  match json_object_get_value o name with
  | some (.JBool b) => b
  | _ => true

/-- parson json_object_get_string: a borrowed pointer into the parse tree,
or NULL when the field is absent or not a string. -/
def json_object_get_string (o : List (String × JSONValue)) (name : String) :
    Option String :=
  match json_object_get_value o name with
  | some (.JString s) => some s
  | _ => none

/-- The DX_DEVICE_TWIN type tag of a binding (device_twins.h). -/
inductive TwinType where
  | TYPE_UNKNOWN
  | TYPE_INT
  | TYPE_FLOAT
  | TYPE_BOOL
  | TYPE_STRING
deriving DecidableEq

/-- A typed scalar held in a binding's twinState storage.  Floats stand in
for C floats and are modelled as rationals. -/
inductive TwinValue where
  | vInt (n : ℤ)
  | vFloat (q : ℚ)
  | vBool (b : Bool)
  | vStr (s : String)
deriving DecidableEq

/-- The C read `*(int*)p` applied to a typed value; the default arm stands
for a type-confused read that the modelled call paths never perform. -/
def valAsInt : TwinValue → ℤ
  | .vInt n => n
  | _ => 0

/-- The C read `*(float*)p`. -/
def valAsFloat : TwinValue → ℚ
  | .vFloat q => q
  | _ => 0

/-- The C read `*(bool*)p`. -/
def valAsBool : TwinValue → Bool
  | .vBool b => b
  | _ => false

/-- The C read `(char*)p`. -/
def valAsString : TwinValue → String
  | .vStr s => s
  | _ => ""

/-- Reading an int through the twinState pointer (`*(int*)b->twinState`);
the default stands for the NULL or type-confused dereference that the
modelled call paths never perform. -/
def derefInt (p : Option TwinValue) : ℤ :=
  match p with
  | some v => valAsInt v
  | none => 0

/-- Reading a float through the twinState pointer. -/
def derefFloat (p : Option TwinValue) : ℚ :=
  match p with
  | some v => valAsFloat v
  | none => 0

/-- Reading a bool through the twinState pointer. -/
def derefBool (p : Option TwinValue) : Bool :=
  match p with
  | some v => valAsBool v
  | none => false

/-- Reading a string through the twinState pointer. -/
def derefString (p : Option TwinValue) : String :=
  match p with
  | some v => valAsString v
  | none => ""

/-- The DeviceTwinBinding struct: property name, type tag, twinState
storage pointer (`none` models NULL) and whether a change handler was
registered (handler != NULL). -/
structure DeviceTwinBinding where
  twinProperty : String
  twinType : TwinType
  twinState : Option TwinValue
  hasHandler : Bool
deriving DecidableEq

/-- Observable side effects of a dispatch or publish call: a change-handler
invocation, or a fragment handed to DeviceTwinUpdateReportedState for
upload. -/
inductive Event where
  | handlerInvoked (propertyName : String)
  | published (fragment : String)
deriving DecidableEq

/-- Modelled from the spec: the external collaborators of device_twins.c
that are not under src/.  `connected` is the result of ConnectToAzureIot()
(azure_iot.c; the spec calls it "connectivity to the remote service ... an
external collaborator call"); `sendOk` is whether
IoTHubDeviceClient_LL_SendReportedState accepts the submission (SDK,
"submission rejected by transport"); `cap` is DEVICE_TWIN_REPORT_LEN, the
fixed report buffer size declared in device_twins.h ("guarded by
fixed-size buffers"), whose numeric value the spec does not give. -/
structure AzureEnv where
  connected : Bool
  sendOk : Bool
  cap : Nat

/-- Modelled from the spec: Terminate() (terminate.h, not under src/) is
"fails fatally (terminates the process)"; a terminated run yields no
binding. -/
def Terminate {α : Type} : Option α := none

/-- C snprintf into a buffer of size cap: returns the length the full text
would have, and the text actually stored (truncated to cap - 1
characters). -/
def snprintf_model (cap : Nat) (s : String) : Nat × String :=
  (s.length, String.mk (s.data.take (cap - 1)))

/-- Truncation toward zero of a rational, modelling the C cast from double
to int. -/
def ratTrunc (q : ℚ) : ℤ :=
  if 0 ≤ q then ⌊q⌋ else ⌈q⌉

/-- C printf %f applied to the rational standing in for a double: six
digits after the decimal point. -/
def format_float (q : ℚ) : String :=
  let n : ℤ := round (q * 1000000)
  let sign := if n < 0 then "-" else ""
  let m := n.natAbs
  let ip := m / 1000000
  let fp := m % 1000000
  let fs := toString fp
  sign ++ toString ip ++ "." ++ String.mk (List.replicate (6 - fs.length) '0') ++ fs

/-- The contents the allocator happens to leave in freshly malloc'd
twinState storage; malloc does not initialize them. -/
structure AllocContents where
  intVal : ℤ
  floatVal : ℚ
  boolVal : Bool

/-- The value OpenDeviceTwin's malloc leaves in storage for a given type
tag (the last arm is unreachable: no allocation happens for those tags). -/
def allocValue (c : AllocContents) : TwinType → TwinValue
  | .TYPE_INT => .vInt c.intVal
  | .TYPE_FLOAT => .vFloat c.floatVal
  | .TYPE_BOOL => .vBool c.boolVal
  | _ => .vInt 0

/-- OpenDeviceTwin (device_twins.c lines 26-46): a TYPE_UNKNOWN binding is
fatal (Terminate) before anything is allocated; int, float and bool
bindings get heap storage whose contents are whatever malloc left there;
string (and JSON) bindings are left alone. -/
def OpenDeviceTwin (contents : AllocContents) (b : DeviceTwinBinding) :
    Option DeviceTwinBinding :=
  if b.twinType = .TYPE_UNKNOWN then
    Terminate
  else
    match b.twinType with
    | .TYPE_INT => some { b with twinState := some (allocValue contents .TYPE_INT) }
    | .TYPE_FLOAT => some { b with twinState := some (allocValue contents .TYPE_FLOAT) }
    | .TYPE_BOOL => some { b with twinState := some (allocValue contents .TYPE_BOOL) }
    | _ => some b

/-- CloseDeviceTwin (device_twins.c lines 48-53): frees twinState when it
is non-NULL and nulls the pointer.  The Nat is the number of free() calls
performed. -/
def CloseDeviceTwin (b : DeviceTwinBinding) : DeviceTwinBinding × Nat :=
  if b.twinState.isSome then ({ b with twinState := none }, 1) else (b, 0)

/-- DeviceTwinUpdateReportedState (device_twins.c lines 239-250): submits
the fragment to the IoT hub client; the submission itself is the event,
the Bool is whether the transport accepted it. -/
def DeviceTwinUpdateReportedState (env : AzureEnv) (s : String) :
    Bool × List Event :=
  (env.sendOk, [Event.published s])

/-- The switch of TwinReportState (device_twins.c lines 212-231): formats
the reported-state fragment from the binding's current twinState into the
DEVICE_TWIN_REPORT_LEN buffer.  The default arm leaves len at 0. -/
def twinReportFormat (cap : Nat) (b : DeviceTwinBinding) : Nat × String :=
  match b.twinType with
  | .TYPE_INT =>
    snprintf_model cap
      ("\x7b\"" ++ b.twinProperty ++ "\":" ++ toString (derefInt b.twinState) ++ "\x7d")
  | .TYPE_FLOAT =>
    snprintf_model cap
      ("\x7b\"" ++ b.twinProperty ++ "\":" ++ format_float (derefFloat b.twinState) ++ "\x7d")
  | .TYPE_BOOL =>
    snprintf_model cap
      ("\x7b\"" ++ b.twinProperty ++ "\":" ++ (if derefBool b.twinState then "true" else "false") ++ "\x7d")
  | .TYPE_STRING =>
    snprintf_model cap
      ("\x7b\"" ++ b.twinProperty ++ "\":\"" ++ derefString b.twinState ++ "\"\x7d")
  | .TYPE_UNKNOWN => (0, "")

/-- TwinReportState (device_twins.c lines 203-237): publish variant (a),
formatting from the already-updated twinState.  Fails without submitting
when not connected or when the formatted length is 0; the binding itself
is never modified. -/
def TwinReportState (env : AzureEnv) (b : DeviceTwinBinding) :
    Bool × List Event :=
  if env.connected = false then (false, [])
  else
    let ls := twinReportFormat env.cap b
    if ls.1 = 0 then (false, [])
    else DeviceTwinUpdateReportedState env ls.2

/-- The writes of DeviceTwinReportState's switch (device_twins.c lines
171-196): the supplied state is copied into twinState for scalar types;
for TYPE_STRING the twinState pointer is set to NULL; TYPE_UNKNOWN only
logs. -/
def deviceTwinWrite (b : DeviceTwinBinding) (state : TwinValue) :
    DeviceTwinBinding :=
  match b.twinType with
  | .TYPE_INT => { b with twinState := some (.vInt (valAsInt state)) }
  | .TYPE_FLOAT => { b with twinState := some (.vFloat (valAsFloat state)) }
  | .TYPE_BOOL => { b with twinState := some (.vBool (valAsBool state)) }
  | .TYPE_STRING => { b with twinState := none }
  | .TYPE_UNKNOWN => b

/-- The snprintf calls of DeviceTwinReportState's switch: the scalar arms
read back the value just written (equal to the supplied state), the string
arm formats the supplied state directly; TYPE_UNKNOWN leaves len at 0. -/
def deviceTwinReportFormat (cap : Nat) (b : DeviceTwinBinding)
    (state : TwinValue) : Nat × String :=
  match b.twinType with
  | .TYPE_INT =>
    snprintf_model cap
      ("\x7b\"" ++ b.twinProperty ++ "\":" ++ toString (valAsInt state) ++ "\x7d")
  | .TYPE_FLOAT =>
    snprintf_model cap
      ("\x7b\"" ++ b.twinProperty ++ "\":" ++ format_float (valAsFloat state) ++ "\x7d")
  | .TYPE_BOOL =>
    snprintf_model cap
      ("\x7b\"" ++ b.twinProperty ++ "\":" ++ (if valAsBool state then "true" else "false") ++ "\x7d")
  | .TYPE_STRING =>
    snprintf_model cap
      ("\x7b\"" ++ b.twinProperty ++ "\":\"" ++ valAsString state ++ "\"\x7d")
  | .TYPE_UNKNOWN => (0, "")

/-- DeviceTwinReportState (device_twins.c lines 159-201): publish variant
(b) for an externally supplied value.  NULL binding and disconnected
transport fail before any write; otherwise the state is written into
twinState (or twinState is nulled, for strings), formatted, and submitted
unless the formatted length is 0. -/
def DeviceTwinReportState (env : AzureEnv) (binding : Option DeviceTwinBinding)
    (state : TwinValue) : Option DeviceTwinBinding × Bool × List Event :=
  match binding with
  | none => (none, false, [])
  | some b =>
    if env.connected = false then (some b, false, [])
    else
      let b' := deviceTwinWrite b state
      let ls := deviceTwinReportFormat env.cap b state
      if ls.1 = 0 then (some b', false, [])
      else
        let r := DeviceTwinUpdateReportedState env ls.2
        (some b', r.1, r.2)

/-- SetDesiredState (device_twins.c lines 110-157): if the nested object's
"value" field has the JSON type expected by the binding's type tag, store
the (truncated) value, invoke the handler when registered, and re-report
through TwinReportState (whose Bool result the C code discards).  The
string arm stores the borrowed parser string only for the duration of the
call and nulls twinState before returning (line 151). -/
def SetDesiredState (env : AzureEnv) (jsonObject : List (String × JSONValue))
    (b : DeviceTwinBinding) : DeviceTwinBinding × List Event :=
  match b.twinType with
  | .TYPE_INT =>
    if json_object_has_value_of_type jsonObject "value" .JSONNumber then
      let b' := { b with twinState := some (.vInt (ratTrunc (json_object_get_number jsonObject "value"))) }
      let hevs := if b.hasHandler then [Event.handlerInvoked b.twinProperty] else []
      (b', hevs ++ (TwinReportState env b').2)
    else (b, [])
  | .TYPE_FLOAT =>
    if json_object_has_value_of_type jsonObject "value" .JSONNumber then
      let b' := { b with twinState := some (.vFloat (json_object_get_number jsonObject "value")) }
      let hevs := if b.hasHandler then [Event.handlerInvoked b.twinProperty] else []
      (b', hevs ++ (TwinReportState env b').2)
    else (b, [])
  | .TYPE_BOOL =>
    if json_object_has_value_of_type jsonObject "value" .JSONBoolean then
      let b' := { b with twinState := some (.vBool (json_object_get_boolean jsonObject "value")) }
      let hevs := if b.hasHandler then [Event.handlerInvoked b.twinProperty] else []
      (b', hevs ++ (TwinReportState env b').2)
    else (b, [])
  | .TYPE_STRING =>
    if json_object_has_value_of_type jsonObject "value" .JSONString then
      let bset := { b with twinState := (json_object_get_string jsonObject "value").map .vStr }
      let hevs := if b.hasHandler then [Event.handlerInvoked b.twinProperty] else []
      let evs := hevs ++ (TwinReportState env bset).2
      ({ bset with twinState := none }, evs)
    else (b, [])
  | .TYPE_UNKNOWN => (b, [])

/-- The per-binding body of TwinCallback's loop (device_twins.c lines
88-93): look up the binding's dotted property name in the desired tree and
dispatch when present. -/
def dispatchStep (env : AzureEnv) (desired : List (String × JSONValue))
    (b : DeviceTwinBinding) : DeviceTwinBinding × List Event :=
  match json_object_dotget_object desired b.twinProperty with
  | some props => SetDesiredState env props b
  | none => (b, [])

/-- TwinCallback's loop over the registered binding set, in registration
order. -/
def dispatchAll (env : AzureEnv) (desired : List (String × JSONValue)) :
    List DeviceTwinBinding → List DeviceTwinBinding × List Event
  | [] => ([], [])
  | b :: rest =>
    let r := dispatchStep env desired b
    let rs := dispatchAll env desired rest
    (r.1 :: rs.1, r.2 ++ rs.2)

/-- TwinCallback (device_twins.c lines 60-105).  The defensive payload
copy and the parson parse are collapsed into `parsed`, the parse outcome
delivered by the external parser: `none` covers both a failed payload
malloc and json_parse_string returning NULL.  A root value that is not an
object aborts the dispatch just as a parse failure does; the "desired"
sub-object is used when present, else the document root. -/
def TwinCallback (env : AzureEnv) (parsed : Option JSONValue)
    (bindings : List DeviceTwinBinding) :
    List DeviceTwinBinding × List Event :=
  match parsed with
  | none => (bindings, [])
  | some root =>
    match json_value_get_object root with
    | none => (bindings, [])
    | some root_object =>
      let desired := (json_object_dotget_object root_object "desired").getD root_object
      dispatchAll env desired bindings

/-- The guard SetDesiredState applies for a given type tag: whether the
nested object's "value" field has the JSON type the tag expects. -/
def expectedGuard (props : List (String × JSONValue)) : TwinType → Bool
  | .TYPE_INT => json_object_has_value_of_type props "value" .JSONNumber
  | .TYPE_FLOAT => json_object_has_value_of_type props "value" .JSONNumber
  | .TYPE_BOOL => json_object_has_value_of_type props "value" .JSONBoolean
  | .TYPE_STRING => json_object_has_value_of_type props "value" .JSONString
  | .TYPE_UNKNOWN => false

/-- Whether a supplied TwinValue has the shape the binding's type tag
expects (the implicit typing contract of the C void* state argument). -/
def matchesType : TwinValue → TwinType → Bool
  | .vInt _, .TYPE_INT => true
  | .vFloat _, .TYPE_FLOAT => true
  | .vBool _, .TYPE_BOOL => true
  | .vStr _, .TYPE_STRING => true
  | _, _ => false

/-- The full (untruncated) outgoing fragment for a binding type, name and
value, as formatted by both publish variants. -/
def fragmentFor (tt : TwinType) (name : String) (v : TwinValue) : String :=
  match tt with
  | .TYPE_INT => "\x7b\"" ++ name ++ "\":" ++ toString (valAsInt v) ++ "\x7d"
  | .TYPE_FLOAT => "\x7b\"" ++ name ++ "\":" ++ format_float (valAsFloat v) ++ "\x7d"
  | .TYPE_BOOL => "\x7b\"" ++ name ++ "\":" ++ (if valAsBool v then "true" else "false") ++ "\x7d"
  | .TYPE_STRING => "\x7b\"" ++ name ++ "\":\"" ++ valAsString v ++ "\"\x7d"
  | .TYPE_UNKNOWN => ""

/-- Whether a binding keeps no string storage: a string-typed binding's
twinState is NULL.  Scalar bindings satisfy this trivially. -/
def stringCleared (b : DeviceTwinBinding) : Bool :=
  if b.twinType = .TYPE_STRING then decide (b.twinState = none) else true

/-- Sample int32 binding named temp, opened (storage allocated, zeroed by
a prior write) and with a registered handler. -/
def tempBinding : DeviceTwinBinding :=
  { twinProperty := "temp", twinType := .TYPE_INT,
    twinState := some (.vInt 0), hasHandler := true }

/-- Sample unopened int32 binding (twinState NULL). -/
def tempUninit : DeviceTwinBinding :=
  { twinProperty := "temp", twinType := .TYPE_INT,
    twinState := none, hasHandler := false }

/-- Sample string binding (string bindings own no storage). -/
def msgBindingS : DeviceTwinBinding :=
  { twinProperty := "msg", twinType := .TYPE_STRING,
    twinState := none, hasHandler := false }

/-- Sample binding declared without a type. -/
def unknownBinding : DeviceTwinBinding :=
  { twinProperty := "mystery", twinType := .TYPE_UNKNOWN,
    twinState := none, hasHandler := false }

/-- The twin document of the spec's dispatch test. -/
def tempDoc : JSONValue :=
  .JObject [("desired", .JObject [("temp", .JObject [("value", .JNumber 42)])])]

/-- A nested property object whose value is a string (type-mismatched for
an int32 binding). -/
def mismatchProps : List (String × JSONValue) := [("value", .JString "hot")]

/-- A desired tree delivering the string-valued temp update. -/
def mismatchDesired : List (String × JSONValue) :=
  [("temp", .JObject mismatchProps)]

/-! ## Helper lemmas -/

/-- Appending on the right cannot make a nonempty string empty. -/
theorem str_len_ne_zero_left (a b : String) (h : a.length ≠ 0) :
    (a ++ b).length ≠ 0 := by
  rw [String.length_append]; omega

/-- The two-character fragment opener is nonempty. -/
theorem brace_ne_zero : ("\x7b\"" : String).length ≠ 0 := by decide

/-- When the text fits the buffer, the modelled snprintf stores it whole
and reports its length. -/
theorem snprintf_model_eq (cap : Nat) (s : String) (h : s.length < cap) :
    snprintf_model cap s = (s.length, s) := by
  have ht : s.data.take (cap - 1) = s.data := by
    apply List.take_of_length_le
    have hs : s.length = s.data.length := rfl
    omega
  simp [snprintf_model, ht]

/-- TwinCallback's loop processes each binding independently: the result
on a concatenation is the concatenation of the results. -/
theorem dispatchAll_append (env : AzureEnv) (desired : List (String × JSONValue))
    (l1 l2 : List DeviceTwinBinding) :
    dispatchAll env desired (l1 ++ l2) =
      ((dispatchAll env desired l1).1 ++ (dispatchAll env desired l2).1,
       (dispatchAll env desired l1).2 ++ (dispatchAll env desired l2).2) := by
  induction l1 with
  | nil => simp [dispatchAll]
  | cons b rest ih => simp [dispatchAll, ih]

/-- In TwinReportState, a formatted length of 0 can only come from the
switch's default arm, i.e. an unknown type tag. -/
theorem twinReportFormat_len_zero (cap : Nat) (b : DeviceTwinBinding)
    (h : (twinReportFormat cap b).1 = 0) : b.twinType = .TYPE_UNKNOWN := by
  rcases b with ⟨p, tt, st, hh⟩
  have h2 : ("\x7b\"" : String).length = 2 := rfl
  cases tt
  case TYPE_UNKNOWN => rfl
  all_goals
    exfalso
    simp only [twinReportFormat, snprintf_model, String.length_append] at h
    omega

/-- In DeviceTwinReportState, a formatted length of 0 can only come from
the switch's TYPE_UNKNOWN arm. -/
theorem deviceTwinReportFormat_len_zero (cap : Nat) (b : DeviceTwinBinding)
    (state : TwinValue) (h : (deviceTwinReportFormat cap b state).1 = 0) :
    b.twinType = .TYPE_UNKNOWN := by
  rcases b with ⟨p, tt, st, hh⟩
  have h2 : ("\x7b\"" : String).length = 2 := rfl
  cases tt
  case TYPE_UNKNOWN => rfl
  all_goals
    exfalso
    simp only [deviceTwinReportFormat, snprintf_model, String.length_append] at h
    omega

/-- SetDesiredState leaves a string binding with twinState NULL (either it
did not touch it, or it nulled it at the end of the string arm). -/
theorem stringCleared_setDesiredState (env : AzureEnv)
    (props : List (String × JSONValue)) (b : DeviceTwinBinding)
    (hb : stringCleared b = true) :
    stringCleared (SetDesiredState env props b).1 = true := by
  rcases b with ⟨p, tt, st, hh⟩
  cases tt <;> simp only [SetDesiredState] <;> (try split) <;>
    simp_all [stringCleared]

/-- The loop body preserves the string-cleared invariant. -/
theorem stringCleared_dispatchStep (env : AzureEnv)
    (desired : List (String × JSONValue)) (b : DeviceTwinBinding)
    (hb : stringCleared b = true) :
    stringCleared (dispatchStep env desired b).1 = true := by
  unfold dispatchStep
  cases h : json_object_dotget_object desired b.twinProperty with
  | none => simpa using hb
  | some props => simpa using stringCleared_setDesiredState env props b hb

/-- The loop preserves the string-cleared invariant for every binding. -/
theorem stringCleared_dispatchAll (env : AzureEnv)
    (desired : List (String × JSONValue)) (bs : List DeviceTwinBinding)
    (hbs : bs.all stringCleared = true) :
    (dispatchAll env desired bs).1.all stringCleared = true := by
  induction bs with
  | nil => simp [dispatchAll]
  | cons b rest ih =>
    simp only [List.all_cons, Bool.and_eq_true] at hbs
    simp only [dispatchAll, List.all_cons, Bool.and_eq_true]
    exact ⟨stringCleared_dispatchStep env desired b hbs.1, ih hbs.2⟩

/-- The write phase of DeviceTwinReportState preserves the string-cleared
invariant (the string arm nulls twinState outright). -/
theorem stringCleared_deviceTwinWrite (b : DeviceTwinBinding)
    (state : TwinValue) (hb : stringCleared b = true) :
    stringCleared (deviceTwinWrite b state) = true := by
  rcases b with ⟨p, tt, st, hh⟩
  cases tt <;> simp_all [deviceTwinWrite, stringCleared]

/-! ## Claim theorems -/

/-- C1: dispatching the document desired.temp.value = 42 against a
registered int32 binding named temp updates its local value to 42, invokes
its change handler exactly once, and produces exactly one publish fragment
equal to the serialized temp = 42 object, given a connected transport and
a report buffer that fits the 11-character fragment. -/
theorem twinCallback_temp_int42 (sok : Bool) (cap : Nat) (hcap : 12 ≤ cap) :
    TwinCallback ⟨true, sok, cap⟩ (some tempDoc) [tempBinding] =
      ([{ tempBinding with twinState := some (.vInt 42) }],
       [.handlerInvoked "temp", .published "\x7b\"temp\":42\x7d"]) := by
  have key : TwinCallback ⟨true, sok, cap⟩ (some tempDoc) [tempBinding] =
      ([{ tempBinding with twinState := some (.vInt 42) }],
       [Event.handlerInvoked "temp"] ++
         (TwinReportState ⟨true, sok, cap⟩
           { tempBinding with twinState := some (.vInt 42) }).2 ++ []) := rfl
  have htrs : TwinReportState ⟨true, sok, cap⟩
      { tempBinding with twinState := some (.vInt 42) } =
      (sok, [Event.published
        (String.mk (("\x7b\"temp\":42\x7d" : String).data.take (cap - 1)))]) := rfl
  have htake : ("\x7b\"temp\":42\x7d" : String).data.take (cap - 1) =
      ("\x7b\"temp\":42\x7d" : String).data := by
    apply List.take_of_length_le
    have : ("\x7b\"temp\":42\x7d" : String).data.length = 11 := rfl
    omega
  rw [key, htrs, htake]
  rfl

/-- C1 witness at a concrete environment. -/
theorem twinCallback_temp_int42_witness :
    TwinCallback ⟨true, true, 64⟩ (some tempDoc) [tempBinding] =
      ([{ tempBinding with twinState := some (.vInt 42) }],
       [.handlerInvoked "temp", .published "\x7b\"temp\":42\x7d"]) :=
  twinCallback_temp_int42 true 64 (by omega)

/-- When connected and the formatted length is nonzero,
DeviceTwinReportState performs the write and submits the stored
fragment. -/
theorem dtrs_connected_submit (sok : Bool) (cap : Nat) (b : DeviceTwinBinding)
    (state : TwinValue) (hz : (deviceTwinReportFormat cap b state).1 ≠ 0) :
    DeviceTwinReportState ⟨true, sok, cap⟩ (some b) state =
      (some (deviceTwinWrite b state), sok,
       [Event.published (deviceTwinReportFormat cap b state).2]) := by
  simp only [DeviceTwinReportState]
  rw [if_neg (by simp), if_neg hz]
  rfl

/-- Both publish variants format through the same fragment text. -/
theorem deviceTwinReportFormat_eq (cap : Nat) (b : DeviceTwinBinding)
    (state : TwinValue) :
    deviceTwinReportFormat cap b state =
      snprintf_model cap (fragmentFor b.twinType b.twinProperty state) := by
  rcases b with ⟨p, tt, st, hh⟩
  cases tt <;>
    first
      | rfl
      | simp [deviceTwinReportFormat, fragmentFor, snprintf_model]

/-- For a non-string binding and a state of matching shape, the write
phase of DeviceTwinReportState stores exactly the supplied state. -/
theorem deviceTwinWrite_matched (b : DeviceTwinBinding) (state : TwinValue)
    (htype : b.twinType ≠ .TYPE_STRING)
    (hmatch : matchesType state b.twinType = true) :
    deviceTwinWrite b state = { b with twinState := some state } := by
  rcases b with ⟨p, tt, st, hh⟩
  cases tt <;> cases state <;>
    simp_all [matchesType, deviceTwinWrite, valAsInt, valAsFloat, valAsBool]

/-- C2 (amended): for every binding of scalar type int32, float32 or bool
and every matching value, the externally-originated publish writes the
supplied state into local storage and submits a fragment embedding that
same value (modulo type-specific formatting) — the publish succeeding
exactly when the transport accepts it; string bindings are excluded: they
end with twinState NULL (see the counterexample). -/
theorem deviceTwinReportState_roundtrip (sok : Bool) (cap : Nat)
    (b : DeviceTwinBinding) (state : TwinValue)
    (htype : b.twinType = .TYPE_INT ∨ b.twinType = .TYPE_FLOAT ∨ b.twinType = .TYPE_BOOL)
    (hmatch : matchesType state b.twinType = true)
    (hcap : (fragmentFor b.twinType b.twinProperty state).length < cap) :
    DeviceTwinReportState ⟨true, sok, cap⟩ (some b) state =
      (some { b with twinState := some state }, sok,
       [.published (fragmentFor b.twinType b.twinProperty state)]) := by
  have hnstr : b.twinType ≠ .TYPE_STRING := by
    rcases htype with h | h | h <;> simp [h]
  have hz : (deviceTwinReportFormat cap b state).1 ≠ 0 := by
    intro h0
    have hu := deviceTwinReportFormat_len_zero cap b state h0
    rcases htype with h | h | h <;> rw [h] at hu <;> cases hu
  rw [dtrs_connected_submit sok cap b state hz, deviceTwinReportFormat_eq,
      snprintf_model_eq cap _ hcap, deviceTwinWrite_matched b state hnstr hmatch]

/-- C2 witness at a concrete int32 binding and value. -/
theorem deviceTwinReportState_roundtrip_witness :
    DeviceTwinReportState ⟨true, true, 64⟩ (some tempBinding) (.vInt 7) =
      (some { tempBinding with twinState := some (.vInt 7) }, true,
       [.published (fragmentFor tempBinding.twinType tempBinding.twinProperty (.vInt 7))]) :=
  deviceTwinReportState_roundtrip true 64 tempBinding (.vInt 7) (Or.inl rfl) rfl
    (by decide)

/-- C2 counterexample: for a string-typed binding the publish can succeed
and the fragment carries the supplied value, yet the binding's local
storage (twinState) ends up NULL, not equal to the supplied state — so
the claim fails as stated for string bindings. -/
theorem deviceTwinReportState_string_cex :
    (DeviceTwinReportState ⟨true, true, 64⟩ (some msgBindingS) (.vStr "hi")).2.1 = true ∧
    (DeviceTwinReportState ⟨true, true, 64⟩ (some msgBindingS) (.vStr "hi")).2.2 =
      [.published "\x7b\"msg\":\"hi\"\x7d"] ∧
    (DeviceTwinReportState ⟨true, true, 64⟩ (some msgBindingS) (.vStr "hi")).1.map
      DeviceTwinBinding.twinState = some none ∧
    (some (some (TwinValue.vStr "hi")) : Option (Option TwinValue)) ≠ some none := by
  decide

/-- C3 counterexample: OpenDeviceTwin allocates with malloc, so the new
storage holds whatever the allocator left there; with leftover contents 7
the int32 storage is observably not zero-initialized. -/
theorem openDeviceTwin_not_zero_init_cex :
    (OpenDeviceTwin ⟨7, 0, false⟩ tempUninit).map DeviceTwinBinding.twinState =
      some (some (.vInt 7)) ∧
    (some (some (TwinValue.vInt 7)) : Option (Option TwinValue)) ≠
      some (some (.vInt 0)) := by
  decide

/-- C3 (amended): for int32, float32 and bool bindings, open allocates
non-null storage of the binding's scalar shape; its contents are whatever
the allocator supplied (malloc leaves them indeterminate), not
necessarily zero. -/
theorem openDeviceTwin_alloc (contents : AllocContents) (b : DeviceTwinBinding)
    (h : b.twinType = .TYPE_INT ∨ b.twinType = .TYPE_FLOAT ∨ b.twinType = .TYPE_BOOL) :
    OpenDeviceTwin contents b =
      some { b with twinState := some (allocValue contents b.twinType) } := by
  rcases h with h | h | h <;> simp [OpenDeviceTwin, allocValue, h]

/-- C3 witness at a concrete int32 binding. -/
theorem openDeviceTwin_alloc_witness :
    OpenDeviceTwin ⟨1, 2, true⟩ tempUninit =
      some { tempUninit with
             twinState := some (allocValue ⟨1, 2, true⟩ tempUninit.twinType) } :=
  openDeviceTwin_alloc ⟨1, 2, true⟩ tempUninit (Or.inl rfl)

/-- C4: when the matched nested object's value field does not have the
JSON type the binding's type tag expects, dispatch leaves that binding
unchanged, with no handler invocation and no publish for it, and the
remaining bindings of the same document are processed exactly as they
would be on their own. -/
theorem dispatch_type_mismatch (env : AzureEnv)
    (desired props : List (String × JSONValue)) (b : DeviceTwinBinding)
    (bs1 bs2 : List DeviceTwinBinding)
    (hfound : json_object_dotget_object desired b.twinProperty = some props)
    (hmismatch : expectedGuard props b.twinType = false) :
    dispatchStep env desired b = (b, []) ∧
    dispatchAll env desired (bs1 ++ b :: bs2) =
      ((dispatchAll env desired bs1).1 ++ b :: (dispatchAll env desired bs2).1,
       (dispatchAll env desired bs1).2 ++ (dispatchAll env desired bs2).2) := by
  have hstep : dispatchStep env desired b = (b, []) := by
    unfold dispatchStep
    rw [hfound]
    rcases b with ⟨p, tt, st, hh⟩
    cases tt <;> simp_all [SetDesiredState, expectedGuard]
  refine ⟨hstep, ?_⟩
  rw [dispatchAll_append]
  simp [dispatchAll, hstep]

/-- C4 witness: a string-valued temp update against the int32 temp
binding is skipped while a neighbouring binding is processed as usual. -/
theorem dispatch_type_mismatch_witness :
    dispatchStep ⟨true, true, 64⟩ mismatchDesired tempBinding = (tempBinding, []) ∧
    dispatchAll ⟨true, true, 64⟩ mismatchDesired ([] ++ tempBinding :: [msgBindingS]) =
      ((dispatchAll ⟨true, true, 64⟩ mismatchDesired []).1 ++
        tempBinding :: (dispatchAll ⟨true, true, 64⟩ mismatchDesired [msgBindingS]).1,
       (dispatchAll ⟨true, true, 64⟩ mismatchDesired []).2 ++
        (dispatchAll ⟨true, true, 64⟩ mismatchDesired [msgBindingS]).2) :=
  dispatch_type_mismatch ⟨true, true, 64⟩ mismatchDesired mismatchProps tempBinding
    [] [msgBindingS] rfl rfl

/-- C5: an input that does not parse as a JSON object — a failed parse, a
failed payload copy, or a root value of any non-object kind — makes
TwinCallback return normally with every binding untouched, no handler
run, and no event; no error is surfaced (the C function returns void). -/
theorem twinCallback_unparsable (env : AzureEnv) (parsed : Option JSONValue)
    (bindings : List DeviceTwinBinding)
    (h : parsed.bind json_value_get_object = none) :
    TwinCallback env parsed bindings = (bindings, []) := by
  cases parsed with
  | none => rfl
  | some v =>
    have hv : json_value_get_object v = none := h
    simp [TwinCallback, hv]

/-- C5 witness: a bare number is valid JSON but not an object. -/
theorem twinCallback_unparsable_witness :
    TwinCallback ⟨true, true, 64⟩ (some (.JNumber 1)) [tempBinding] =
      ([tempBinding], []) :=
  twinCallback_unparsable ⟨true, true, 64⟩ (some (.JNumber 1)) [tempBinding] rfl

/-- C6: a binding declared with an unknown type makes initialization
fatal: OpenDeviceTwin terminates (an aborted run in the model) instead of
returning a binding, and does so before any storage is allocated. -/
theorem openDeviceTwin_unknown_fatal (contents : AllocContents)
    (b : DeviceTwinBinding) (h : b.twinType = .TYPE_UNKNOWN) :
    OpenDeviceTwin contents b = Terminate := by
  simp [OpenDeviceTwin, h]

/-- C6 witness. -/
theorem openDeviceTwin_unknown_fatal_witness :
    OpenDeviceTwin ⟨0, 0, false⟩ unknownBinding = Terminate :=
  openDeviceTwin_unknown_fatal ⟨0, 0, false⟩ unknownBinding rfl

/-- C7: with a disconnected transport, both publish variants return
failure without submitting anything and without modifying twinState
(TwinReportState never writes the binding at all); and a formatted length
of zero — which only the unknown-type default arm produces — likewise
yields failure with no submission and no write. -/
theorem publish_failure_paths (env : AzureEnv) (b : DeviceTwinBinding)
    (state : TwinValue) :
    (env.connected = false →
      TwinReportState env b = (false, []) ∧
      DeviceTwinReportState env (some b) state = (some b, false, [])) ∧
    (env.connected = true → (twinReportFormat env.cap b).1 = 0 →
      TwinReportState env b = (false, [])) ∧
    (env.connected = true → (deviceTwinReportFormat env.cap b state).1 = 0 →
      DeviceTwinReportState env (some b) state = (some b, false, [])) := by
  refine ⟨fun hdis => ⟨?_, ?_⟩, fun hc hz => ?_, fun hc hz => ?_⟩
  · simp [TwinReportState, hdis]
  · simp [DeviceTwinReportState, hdis]
  · simp [TwinReportState, hc, hz]
  · have hu := deviceTwinReportFormat_len_zero env.cap b state hz
    simp [DeviceTwinReportState, hc, hz, deviceTwinWrite, hu]

/-- C7 witness: disconnected transport, and an unknown-typed binding for
the zero-length formatting path. -/
theorem publish_failure_paths_witness :
    TwinReportState ⟨false, true, 64⟩ tempBinding = (false, []) ∧
    DeviceTwinReportState ⟨false, true, 64⟩ (some tempBinding) (.vInt 5) =
      (some tempBinding, false, []) ∧
    TwinReportState ⟨true, true, 64⟩ unknownBinding = (false, []) ∧
    DeviceTwinReportState ⟨true, true, 64⟩ (some unknownBinding) (.vInt 5) =
      (some unknownBinding, false, []) :=
  ⟨((publish_failure_paths ⟨false, true, 64⟩ tempBinding (.vInt 5)).1 rfl).1,
   ((publish_failure_paths ⟨false, true, 64⟩ tempBinding (.vInt 5)).1 rfl).2,
   (publish_failure_paths ⟨true, true, 64⟩ unknownBinding (.vInt 5)).2.1 rfl rfl,
   (publish_failure_paths ⟨true, true, 64⟩ unknownBinding (.vInt 5)).2.2 rfl rfl⟩

/-- C8: close is idempotent per binding — it nulls the twinState
reference, frees exactly once when storage was allocated and not at all
when it was not, and a second close of the same binding is a no-op with
zero frees. -/
theorem closeDeviceTwin_idempotent (b : DeviceTwinBinding) :
    (CloseDeviceTwin b).1.twinState = none ∧
    CloseDeviceTwin (CloseDeviceTwin b).1 = ((CloseDeviceTwin b).1, 0) ∧
    (b.twinState.isSome = true →
      CloseDeviceTwin b = ({ b with twinState := none }, 1)) ∧
    (b.twinState = none → CloseDeviceTwin b = (b, 0)) := by
  rcases b with ⟨p, tt, st, hh⟩
  cases st <;> simp [CloseDeviceTwin]

/-- C8 witness: close of an opened binding frees once; close of an
already-empty binding is a no-op. -/
theorem closeDeviceTwin_idempotent_witness :
    CloseDeviceTwin tempBinding = ({ tempBinding with twinState := none }, 1) ∧
    CloseDeviceTwin tempUninit = (tempUninit, 0) :=
  ⟨(closeDeviceTwin_idempotent tempBinding).2.2.1 rfl,
   (closeDeviceTwin_idempotent tempUninit).2.2.2 rfl⟩

/-- Open leaves a string binding's twinState untouched (NULL stays
NULL). -/
theorem stringCleared_open (contents : AllocContents) (b : DeviceTwinBinding)
    (hb : stringCleared b = true) :
    Option.all stringCleared (OpenDeviceTwin contents b) = true := by
  rcases b with ⟨p, tt, st, hh⟩
  cases tt <;>
    simp_all [OpenDeviceTwin, Terminate, stringCleared, allocValue, Option.all]

/-- The first component of DeviceTwinReportState on a non-NULL binding is
either the unchanged binding (disconnected) or the written binding. -/
theorem dtrs_fst (env : AzureEnv) (b : DeviceTwinBinding) (state : TwinValue) :
    (DeviceTwinReportState env (some b) state).1 = some b ∨
    (DeviceTwinReportState env (some b) state).1 = some (deviceTwinWrite b state) := by
  by_cases hc : env.connected = false
  · simp [DeviceTwinReportState, hc]
  · simp only [DeviceTwinReportState]
    rw [if_neg hc]
    by_cases hz : (deviceTwinReportFormat env.cap b state).1 = 0
    · rw [if_pos hz]; right; rfl
    · rw [if_neg hz]; right; rfl

/-- Close leaves every binding (string bindings in particular) with
twinState NULL. -/
theorem stringCleared_close (b : DeviceTwinBinding) :
    stringCleared (CloseDeviceTwin b).1 = true := by
  rcases b with ⟨p, tt, st, hh⟩
  cases st <;> cases tt <;> simp [CloseDeviceTwin, stringCleared]

/-- A string binding holds no storage, so close performs no free for
it. -/
theorem close_no_free_string (b : DeviceTwinBinding)
    (hb : stringCleared b = true) :
    b.twinType ≠ .TYPE_STRING ∨ (CloseDeviceTwin b).2 = 0 := by
  rcases b with ⟨p, tt, st, hh⟩
  cases tt
  case TYPE_STRING =>
    right
    simp only [stringCleared, if_pos] at hb
    have hst : st = none := of_decide_eq_true hb
    subst hst
    simp [CloseDeviceTwin]
  all_goals exact Or.inl (by simp)

/-- TwinCallback preserves the string-cleared invariant for every binding
of the registered set. -/
theorem stringCleared_twinCallback (env : AzureEnv) (parsed : Option JSONValue)
    (bs : List DeviceTwinBinding) (hbs : bs.all stringCleared = true) :
    (TwinCallback env parsed bs).1.all stringCleared = true := by
  cases parsed with
  | none => simpa [TwinCallback] using hbs
  | some v =>
    cases hv : json_value_get_object v with
    | none => simpa [TwinCallback, hv] using hbs
    | some root_object =>
      simp only [TwinCallback, hv]
      exact stringCleared_dispatchAll env _ bs hbs

/-- C9: a string-typed binding's twinState is NULL whenever an operation
of the component returns — open leaves it NULL, dispatch nulls it again
before returning (the borrowed parser-owned string never survives the
dispatch call), the externally-originated publish nulls it, close keeps
it NULL — and consequently close never frees parser-owned string
memory. -/
theorem string_state_transient (env : AzureEnv) (contents : AllocContents)
    (props : List (String × JSONValue)) (b : DeviceTwinBinding)
    (state : TwinValue) (parsed : Option JSONValue)
    (bs : List DeviceTwinBinding)
    (hb : stringCleared b = true) (hbs : bs.all stringCleared = true) :
    Option.all stringCleared (OpenDeviceTwin contents b) = true ∧
    stringCleared (SetDesiredState env props b).1 = true ∧
    Option.all stringCleared (DeviceTwinReportState env (some b) state).1 = true ∧
    stringCleared (CloseDeviceTwin b).1 = true ∧
    (b.twinType ≠ .TYPE_STRING ∨ (CloseDeviceTwin b).2 = 0) ∧
    (TwinCallback env parsed bs).1.all stringCleared = true := by
  refine ⟨stringCleared_open contents b hb,
    stringCleared_setDesiredState env props b hb, ?_,
    stringCleared_close b, close_no_free_string b hb,
    stringCleared_twinCallback env parsed bs hbs⟩
  rcases dtrs_fst env b state with h1 | h1 <;> rw [h1] <;>
    simp [Option.all, hb, stringCleared_deviceTwinWrite b state hb]

/-- C9 witness at a concrete string binding, exercising the string arm of
dispatch (the mismatch document's value is a string, so the guard
passes). -/
theorem string_state_transient_witness :
    Option.all stringCleared (OpenDeviceTwin ⟨1, 2, true⟩ msgBindingS) = true ∧
    stringCleared (SetDesiredState ⟨true, true, 64⟩ mismatchProps msgBindingS).1 = true ∧
    Option.all stringCleared
      (DeviceTwinReportState ⟨true, true, 64⟩ (some msgBindingS) (.vStr "x")).1 = true ∧
    stringCleared (CloseDeviceTwin msgBindingS).1 = true ∧
    (msgBindingS.twinType ≠ .TYPE_STRING ∨ (CloseDeviceTwin msgBindingS).2 = 0) ∧
    (TwinCallback ⟨true, true, 64⟩ (some tempDoc) [msgBindingS]).1.all stringCleared = true :=
  string_state_transient ⟨true, true, 64⟩ ⟨1, 2, true⟩ mismatchProps msgBindingS
    (.vStr "x") (some tempDoc) [msgBindingS] rfl rfl

/-- C10: a NULL binding pointer makes DeviceTwinReportState return false
immediately, with no state modified and no submission attempted. -/
theorem deviceTwinReportState_null (env : AzureEnv) (state : TwinValue) :
    DeviceTwinReportState env none state = (none, false, []) := rfl

end DeviceTwins
